import Mathlib

/-!
Shallow embedding of the Reddit scraper in `src/web_scraping/main.py`
(duplicated, with identical logic, in `src/web_scraping/copy.py`).

Python strings are modelled as `List Char`.  The network and the HTML
parser are modelled as an oracle `net : List Char → FetchOutcome` that
maps each target URL to the outcome of its `requests.get` +
`raise_for_status` + `BeautifulSoup` pipeline: a parsed `Document` on
success, or the exception branch that was taken on failure.  A parsed
document is its `<title>` tag, its `h1`–`h4` headings and its anchor
tags carrying an `href`, which is everything the extraction code reads.
-/

/-- Whitespace stripping from both ends, modelling the
`get_text(strip=True)` calls applied to heading and link text. -/
def stripChars (s : List Char) : List Char :=
  ((s.dropWhile Char.isWhitespace).reverse.dropWhile Char.isWhitespace).reverse

/-- Case folding, modelling `text.lower()` before keyword matching. -/
def lowerChars (s : List Char) : List Char := s.map Char.toLower

/-- The fixed keyword list
`['python', 'programming', 'code', 'developer', 'coding']`. -/
def keywords : List (List Char) :=
  ["python".data, "programming".data, "code".data, "developer".data, "coding".data]

/-- The discussion-marker substring `'/comments/'` tested on each href. -/
def commentsMarker : List Char := "/comments/".data

/-- The `'...'` marker appended to truncated discussion titles. -/
def ellipsisMark : List Char := "...".data

/-- One structured record extracted from a document: the dictionaries the
source tags with `'type': 'python_topic'` or `'type': 'discussion'`. -/
inductive Record where
  | topic (title : List Char)
  | discussion (title : List Char) (url : List Char)
deriving DecidableEq

/-- An `h1`–`h4` element; the extraction code reads only its text. -/
structure Heading where
  text : List Char
deriving DecidableEq

/-- An anchor tag with an `href` attribute, as found by
`soup.find_all('a', href=True)`. -/
structure Link where
  text : List Char
  href : List Char
deriving DecidableEq

/-- A parsed HTML document (the BeautifulSoup soup), restricted to the
parts the source reads: title tag, headings, anchors with href. -/
structure Document where
  title : Option (List Char)
  headings : List Heading
  links : List Link
deriving DecidableEq

/-- The keyword filter
`any(keyword in text.lower() for keyword in [...])`. -/
def keywordMatch (text : List Char) : Bool :=
  keywords.any (fun k => decide (k <:+: lowerChars text))

/-- Processing of one heading: keep stripped text that is truthy
(`text and`), longer than 3 characters, and keyword-matching; the
emitted topic stores the stripped text unchanged. -/
def headingTopic (raw : List Char) : Option Record :=
  if stripChars raw ≠ [] ∧ 3 < (stripChars raw).length then
    if keywordMatch (stripChars raw) then some (Record.topic (stripChars raw))
    else none
  else
    none

/-- The `topics` loop over `soup.find_all(['h1','h2','h3','h4'])`. -/
def extractTopics (doc : Document) : List Record :=
  doc.headings.filterMap (fun h => headingTopic h.text)

/-- Discussion-title truncation:
`text[:100] + '...' if len(text) > 100 else text`. -/
def truncTitle (text : List Char) : List Char :=
  if 100 < text.length then text.take 100 ++ ellipsisMark else text

/-- One iteration of the `discussions` loop.  The state is the pair of
the accumulated `discussions` list and the `seen_urls` set (modelled as
the list of its elements in insertion order).  The guard is the source's
`if text and len(text) > 1 and '/comments/' in href and href not in
seen_urls`. -/
def discStep (s : List Record × List (List Char)) (l : Link) :
    List Record × List (List Char) :=
  if stripChars l.text ≠ [] ∧ 1 < (stripChars l.text).length ∧
      commentsMarker <:+: l.href ∧ l.href ∉ s.2 then
    (s.1 ++ [Record.discussion (truncTitle (stripChars l.text)) l.href],
     s.2 ++ [l.href])
  else
    s

/-- The `discussions` loop over `soup.find_all('a', href=True)`, with
`discussions = []` and `seen_urls = set()` re-initialised per document. -/
def extractDiscussions (doc : Document) : List Record :=
  (doc.links.foldl discStep ([], [])).1

/-- The URLs carried by the discussion records of a list. -/
def discussionUrls (rs : List Record) : List (List Char) :=
  rs.filterMap (fun r =>
    match r with
    | Record.discussion _ u => some u
    | Record.topic _ => none)

/-- Both record sequences the extraction phase produces from one parsed
document: the topic records and the discussion records. -/
def extractRecords (doc : Document) : List Record × List Record :=
  (extractTopics doc, extractDiscussions doc)

/-- Outcome of fetching and parsing one target, the oracle for the
network and the parser: `ok` carries the parsed document, `netErr` is
the `requests.RequestException` handler path (connection error, DNS
failure, timeout, or `raise_for_status` on an HTTP error status),
`parseErr` is the generic `Exception` handler path. -/
inductive FetchOutcome where
  | ok (doc : Document)
  | netErr (msg : List Char)
  | parseErr (msg : List Char)
deriving DecidableEq

/-- Whether the fetch+parse pipeline of a target succeeded. -/
def FetchOutcome.isOk : FetchOutcome → Bool
  | .ok _ => true
  | .netErr _ => false
  | .parseErr _ => false

/-- The subreddit name `url.split('/')[-1]`. -/
def lastSegment (url : List Char) : List Char :=
  (url.splitOn '/').getLastD []

/-- The `subreddit_data` dictionary built for a successfully fetched and
parsed target (the `scraped_at` wall-clock timestamp is omitted; no
claim mentions it). -/
structure SubredditData where
  subreddit : List Char
  url : List Char
  title : List Char
  python_topics : List Record
  discussions : List Record
deriving DecidableEq

/-- The body of one loop iteration: on a successful fetch and parse it
builds the `subreddit_data` entry that `all_data.append` receives; on
either exception path nothing is produced — the handlers only print and
the loop moves on. -/
def processTarget (url : List Char) (r : FetchOutcome) : Option SubredditData :=
  match r with
  | .ok doc =>
      some { subreddit := lastSegment url, url := url,
             title := doc.title.getD "No title".data,
             python_topics := extractTopics doc,
             discussions := extractDiscussions doc }
  | .netErr _ => none
  | .parseErr _ => none

/-- The `for url in subreddits` loop of `scrape_reddit_python_topics`,
generalised over the target list: `all_data` accumulates one entry per
target whose pipeline succeeded, in loop order. -/
def scrapeLoop (net : List Char → FetchOutcome) (targets : List (List Char)) :
    List SubredditData :=
  targets.filterMap (fun url => processTarget url (net url))

/-- The hard-coded target list of the source. -/
def subreddits : List (List Char) :=
  ["https://www.reddit.com/r/Python".data,
   "https://www.reddit.com/r/programming".data,
   "https://www.reddit.com/r/learnpython".data]

/-- `scrape_reddit_python_topics`: the batch loop run on the hard-coded
subreddit list, returning `all_data`. -/
def scrape_reddit_python_topics (net : List Char → FetchOutcome) :
    List SubredditData :=
  scrapeLoop net subreddits

/-- Externally visible I/O events of the batch loop, for the politeness
claims: the `requests.get` call and the `time.sleep` call. -/
inductive Event where
  | request (url : List Char)
  | sleep (n : Nat)
deriving DecidableEq

/-- Whether an event is an outgoing HTTP request. -/
def Event.isRequest : Event → Bool
  | .request _ => true
  | .sleep _ => false

/-- Events of one loop iteration: `requests.get` always issues a
request; `time.sleep(2)` runs only when fetch and parse both succeed,
because it is the last statement of the `try` block and both `except`
handlers jump past it. -/
def targetTrace (url : List Char) (r : FetchOutcome) : List Event :=
  match r with
  | .ok _ => [Event.request url, Event.sleep 2]
  | .netErr _ => [Event.request url]
  | .parseErr _ => [Event.request url]

/-- The event trace of a whole batch run, in loop order. -/
def batchTrace (net : List Char → FetchOutcome) (targets : List (List Char)) :
    List Event :=
  (targets.map (fun url => targetTrace url (net url))).flatten

/-- The summary statistics printed by `main`: running totals of topic
and discussion counts, and the number of entries in the returned data
(printed as `across N subreddits`). -/
structure Summary where
  totalTopics : Nat
  totalDiscussions : Nat
  subredditCount : Nat
deriving DecidableEq

/-- The summary computation of `main` over the returned data. -/
def summarize (data : List SubredditData) : Summary :=
  { totalTopics := data.foldl (fun acc d => acc + d.python_topics.length) 0
    totalDiscussions := data.foldl (fun acc d => acc + d.discussions.length) 0
    subredditCount := data.length }

/-! Concrete data used by counterexamples and witnesses. -/

/-- First hard-coded target URL. -/
def urlPython : List Char := "https://www.reddit.com/r/Python".data

/-- Second hard-coded target URL. -/
def urlProgramming : List Char := "https://www.reddit.com/r/programming".data

/-- Third hard-coded target URL. -/
def urlLearnPython : List Char := "https://www.reddit.com/r/learnpython".data

/-- A discussion URL used by several example documents. -/
def sharedHref : List Char := "/r/Python/comments/abc123/some_post".data

/-- A document whose only link is a discussion link with URL
`sharedHref`. -/
def docShared : Document :=
  { title := none, headings := [],
    links := [{ text := "same post".data, href := sharedHref }] }

/-- A document with no headings and no links. -/
def emptyDoc : Document := { title := none, headings := [], links := [] }

/-- An oracle under which every fetch raises a network error. -/
def netAllFail : List Char → FetchOutcome :=
  fun _ => FetchOutcome.netErr "connection timed out".data

/-- An oracle under which every fetch succeeds with `docShared`. -/
def netAllShared : List Char → FetchOutcome :=
  fun _ => FetchOutcome.ok docShared

/-- The spec's partial-failure scenario: target 2 (r/programming) fails
with a network error, targets 1 and 3 succeed. -/
def netFailSecond : List Char → FetchOutcome :=
  fun url =>
    if url = urlProgramming then FetchOutcome.netErr "connection timed out".data
    else FetchOutcome.ok docShared

/-! Helper lemmas shared between claims. -/

/-- The loop keeps exactly the targets whose pipeline succeeded, in loop
order, each contributing the entry `processTarget` builds for it. -/
theorem scrapeLoop_eq_filter (net : List Char → FetchOutcome)
    (targets : List (List Char)) :
    (scrapeLoop net targets).map (fun o => o.url) =
      (targets.filter (fun u => (net u).isOk)).map (fun u => u) := by
  induction targets with
  | nil => rfl
  | cons u rest ih =>
      cases h : net u with
      | ok d =>
          simp [scrapeLoop, List.filterMap_cons, processTarget, h,
            FetchOutcome.isOk, List.filter_cons] at ih ⊢
          exact ih
      | netErr m =>
          simp [scrapeLoop, List.filterMap_cons, processTarget, h,
            FetchOutcome.isOk, List.filter_cons] at ih ⊢
          exact ih
      | parseErr m =>
          simp [scrapeLoop, List.filterMap_cons, processTarget, h,
            FetchOutcome.isOk, List.filter_cons] at ih ⊢
          exact ih

/-- Length form of the loop characterisation: one entry per successful
target and none for a failed one. -/
theorem scrapeLoop_length (net : List Char → FetchOutcome)
    (targets : List (List Char)) :
    (scrapeLoop net targets).length =
      (targets.filter (fun u => (net u).isOk)).length := by
  have h := congrArg List.length (scrapeLoop_eq_filter net targets)
  simpa using h

/-- C1 — the claim as stated fails: with a single target whose fetch
raises a network error, the returned collection has zero entries while
one target was enumerated, so the per-target-outcome count is not
preserved for failed targets. -/
theorem c1_counterexample :
    ¬ ((scrape_reddit_python_topics netFailSecond).length = subreddits.length) := by
  decide

/-- C1 (amended) — the returned collection has exactly one entry per
target whose fetch and parse succeeded; targets whose pipeline failed
are silently dropped and contribute no entry. -/
theorem c1_outcomes_count (net : List Char → FetchOutcome)
    (targets : List (List Char)) :
    (scrapeLoop net targets).length =
      (targets.filter (fun u => (net u).isOk)).length :=
  scrapeLoop_length net targets

/-- C2 — the claim as stated fails: a network-error fetch is not
recorded as data; the batch result of a run where `r/Python` fails and
`r/learnpython` succeeds contains no outcome at all for the failed
target. -/
theorem c2_counterexample :
    ¬ ∃ o ∈ scrapeLoop
        (fun url => if url = urlPython then
            FetchOutcome.netErr "name resolution failed".data
          else FetchOutcome.ok emptyDoc)
        [urlPython, urlLearnPython],
      o.url = urlPython := by
  decide

/-- C2 (amended) — a fetch that raises a network error (or a parse
error) never propagates to the batch caller and processing continues
with the remaining targets unchanged, but the failure is only printed,
never recorded: the failed target contributes no outcome. -/
theorem c2_failure_skips (net : List Char → FetchOutcome) (u : List Char)
    (targets : List (List Char)) (h : (net u).isOk = false) :
    scrapeLoop net (u :: targets) = scrapeLoop net targets := by
  cases hn : net u with
  | ok d => rw [hn] at h; simp [FetchOutcome.isOk] at h
  | netErr m => simp [scrapeLoop, List.filterMap_cons, processTarget, hn]
  | parseErr m => simp [scrapeLoop, List.filterMap_cons, processTarget, hn]

/-- C2 witness — concrete instance of the amended claim: under the
all-failing oracle, prepending the `r/Python` target leaves the batch
result unchanged. -/
theorem c2_failure_skips_witness :
    (netAllFail urlPython).isOk = false ∧
      scrapeLoop netAllFail (urlPython :: subreddits) =
        scrapeLoop netAllFail subreddits :=
  ⟨by decide, c2_failure_skips netAllFail urlPython subreddits (by decide)⟩

/-- C3 — the claim as stated fails: in the spec's own partial-failure
scenario (three targets, the second failing with a network error) the
summary reports `subredditCount = 2` and the returned data records zero
failures (the failed target appears nowhere in it, and no entry carries
a failure tag — the type has none), so reported successes plus reported
failures is `2 + 0`, not the 3 enumerated targets. -/
theorem c3_counterexample :
    ¬ ((summarize (scrape_reddit_python_topics netFailSecond)).subredditCount + 0 =
        subreddits.length) := by
  decide

/-- C3 (amended) — the reported subreddit count equals the number of
targets whose pipeline succeeded, and it reconciles with the total only
once the silently dropped failed targets are counted externally:
`subredditCount + #failed-targets = len(targets)`; the report itself
contains no failure count. -/
theorem c3_success_count (net : List Char → FetchOutcome)
    (targets : List (List Char)) :
    (summarize (scrapeLoop net targets)).subredditCount +
        (targets.filter (fun u => !(net u).isOk)).length =
      targets.length := by
  show (scrapeLoop net targets).length + _ = _
  rw [scrapeLoop_length]
  induction targets with
  | nil => rfl
  | cons u rest ih =>
      cases h : (net u).isOk <;>
        simp [List.filter_cons, h] <;> omega

/-- C4 — the sequence of per-target outcomes in the returned data is
ordered by the original enumeration order of the targets: its URL
sequence is exactly the enumeration-order subsequence of target URLs
whose pipeline succeeded (the loop is sequential, so completion order
cannot reorder it). -/
theorem c4_report_order (net : List Char → FetchOutcome)
    (targets : List (List Char)) :
    (scrapeLoop net targets).map (fun o => o.url) =
      targets.filter (fun u => (net u).isOk) := by
  have h := scrapeLoop_eq_filter net targets
  simpa using h

/-- One step of the discussions loop preserves the loop invariant: the
URLs of the accumulated records coincide with the `seen_urls` set, and
that set never acquires a duplicate. -/
theorem discStep_invariant (s : List Record × List (List Char)) (l : Link)
    (h1 : discussionUrls s.1 = s.2) (h2 : s.2.Nodup) :
    discussionUrls (discStep s l).1 = (discStep s l).2 ∧
      (discStep s l).2.Nodup := by
  unfold discStep
  split
  · next hc =>
      refine ⟨?_, ?_⟩
      · simp [discussionUrls, List.filterMap_append] at h1 ⊢
        exact h1
      · simp [List.nodup_append, h2]
        exact hc.2.2.2
  · exact ⟨h1, h2⟩

/-- The discussions-loop invariant propagated through the whole fold. -/
theorem discStep_foldl_invariant (links : List Link)
    (s : List Record × List (List Char))
    (h1 : discussionUrls s.1 = s.2) (h2 : s.2.Nodup) :
    discussionUrls (links.foldl discStep s).1 = (links.foldl discStep s).2 ∧
      (links.foldl discStep s).2.Nodup := by
  induction links generalizing s with
  | nil => exact ⟨h1, h2⟩
  | cons l ls ih =>
      rw [List.foldl_cons]
      have h := discStep_invariant s l h1 h2
      exact ih (discStep s l) h.1 h.2

/-- C5 — within one document no two discussion records share a URL
(dedup by exact URL match), and the `seen_urls` set is reset per
document: under an oracle serving every target the same document, the
same URL appears in the discussion records of every target of the
batch. -/
theorem c5_dedup_per_document :
    (∀ doc : Document, (discussionUrls (extractDiscussions doc)).Nodup) ∧
      (scrape_reddit_python_topics netAllShared).map
          (fun o => discussionUrls o.discussions) =
        [[sharedHref], [sharedHref], [sharedHref]] := by
  constructor
  · intro doc
    have h := discStep_foldl_invariant doc.links ([], []) rfl List.nodup_nil
    unfold extractDiscussions
    rw [h.1]
    exact h.2
  · decide

/-- C6 — discussion-title truncation: a display text longer than 100
characters is stored with length exactly 103 and ends with the ellipsis
marker; a display text of at most 100 characters is stored unmodified. -/
theorem c6_truncation (text : List Char) :
    (100 < text.length →
      (truncTitle text).length = 103 ∧ ellipsisMark <:+ truncTitle text) ∧
    (text.length ≤ 100 → truncTitle text = text) := by
  have hm : ellipsisMark.length = 3 := rfl
  constructor
  · intro h
    rw [truncTitle.eq_def, if_pos h]
    refine ⟨?_, List.suffix_append _ _⟩
    rw [List.length_append, List.length_take, hm]
    omega
  · intro h
    rw [truncTitle.eq_def, if_neg (by omega)]

/-- C6 witness — both branches at concrete inputs: a 101-character title
is stored with length 103 ending in the marker; a short title is stored
unmodified. -/
theorem c6_truncation_witness :
    ((truncTitle (List.replicate 101 'a')).length = 103 ∧
        ellipsisMark <:+ truncTitle (List.replicate 101 'a')) ∧
      truncTitle "short title".data = "short title".data :=
  ⟨(c6_truncation (List.replicate 101 'a')).1 (by decide),
   (c6_truncation "short title".data).2 (by decide)⟩

/-- C7 — a heading yields a topic record if and only if its stripped
text has length greater than 3 and its lowercasing contains one of the
fixed keywords as a substring; concretely, `Learning Python Basics` is
tagged as a topic and `Hi` is excluded. -/
theorem c7_heading_filter :
    (∀ raw : List Char,
        (headingTopic raw).isSome = true ↔
          3 < (stripChars raw).length ∧ keywordMatch (stripChars raw) = true) ∧
      headingTopic "Learning Python Basics".data =
        some (Record.topic "Learning Python Basics".data) ∧
      headingTopic "Hi".data = none := by
  refine ⟨?_, by decide, by decide⟩
  intro raw
  unfold headingTopic
  constructor
  · intro h
    by_cases h1 : stripChars raw ≠ [] ∧ 3 < (stripChars raw).length
    · rw [if_pos h1] at h
      by_cases h2 : keywordMatch (stripChars raw)
      · exact ⟨h1.2, h2⟩
      · rw [if_neg h2] at h
        simp at h
    · rw [if_neg h1] at h
      simp at h
  · rintro ⟨h1, h2⟩
    have hne : stripChars raw ≠ [] := by
      intro he
      rw [he] at h1
      simp at h1
    rw [if_pos ⟨hne, h1⟩, if_pos h2]
    rfl

/-- C8 — extraction is a deterministic pure function of the raw parsed
content: two runs on the same document yield identical topic and
discussion record sequences. -/
theorem c8_extractor_deterministic (d1 d2 : Document) (h : d1 = d2) :
    extractRecords d1 = extractRecords d2 := by
  rw [h]

/-- C8 witness — the two runs on a concrete document coincide. -/
theorem c8_extractor_deterministic_witness :
    extractRecords docShared = extractRecords docShared :=
  c8_extractor_deterministic docShared docShared rfl

/-- C9 — the claim as stated fails: `time.sleep(2)` is the last
statement of the `try` block, so a target whose fetch raises skips the
delay, and the next request to the same origin is issued immediately;
in the partial-failure run over the hard-coded reddit.com targets, the
request after the failed `r/programming` fetch is not preceded by a
sleep event. -/
theorem c9_counterexample :
    ¬ List.Chain' (fun a b => Event.isRequest b = true → a = Event.sleep 2)
        (batchTrace netFailSecond subreddits) := by
  intro h
  have htrace : batchTrace netFailSecond subreddits =
      [Event.request urlPython, Event.sleep 2, Event.request urlProgramming,
       Event.request urlLearnPython, Event.sleep 2] := by decide
  rw [htrace, List.chain'_cons, List.chain'_cons, List.chain'_cons] at h
  exact absurd (h.2.2.1 rfl) (by decide)

/-- C9 (amended) — the 2-unit politeness delay runs only after a target
whose fetch and parse both succeed: a failed fetch contributes a bare
request with no delay, and whenever every target of a batch succeeds,
every request after the first is immediately preceded by a sleep of 2
time-units. -/
theorem c9_delay_after_success :
    (∀ u m, targetTrace u (FetchOutcome.netErr m) = [Event.request u]) ∧
    ∀ (net : List Char → FetchOutcome) (targets : List (List Char)),
      (∀ u ∈ targets, (net u).isOk = true) →
      List.Chain' (fun a b => Event.isRequest b = true → a = Event.sleep 2)
        (batchTrace net targets) := by
  refine ⟨fun u m => rfl, ?_⟩
  intro net targets h
  induction targets with
  | nil => simp [batchTrace]
  | cons u rest ih =>
      have hu := h u (by simp)
      have hrest := ih (fun v hv => h v (by simp [hv]))
      cases hn : net u with
      | netErr m => rw [hn] at hu; simp [FetchOutcome.isOk] at hu
      | parseErr m => rw [hn] at hu; simp [FetchOutcome.isOk] at hu
      | ok d =>
          unfold batchTrace at hrest ⊢
          rw [List.map_cons, List.flatten_cons, hn]
          show List.Chain' _ (Event.request u :: Event.sleep 2 :: _)
          rw [List.chain'_cons]
          refine ⟨fun hh => by simp [Event.isRequest] at hh, ?_⟩
          rw [List.chain'_cons']
          exact ⟨fun y _ _ => rfl, hrest⟩

/-- C9 witness — concrete instance of the amended claim: in an all-ok
run over the hard-coded targets, requests are spaced by sleeps. -/
theorem c9_delay_after_success_witness :
    List.Chain' (fun a b => Event.isRequest b = true → a = Event.sleep 2)
      (batchTrace netAllShared subreddits) :=
  c9_delay_after_success.2 netAllShared subreddits (by decide)

/-- A document whose two links both carry the discussion marker in the
href but have display text of length 1 and 0 respectively. -/
def docShortLinkText : Document :=
  { title := none, headings := [],
    links := [{ text := "x".data, href := sharedHref },
              { text := "".data, href := sharedHref }] }

/-- C10 — a hyperlink whose stripped display text is empty or a single
character never changes the state of the discussions loop (so it emits
no record and is silently dropped, even when its href contains the
discussion marker); concretely, a document whose only links carry the
marker but have text of length 1 and 0 yields no discussion records. -/
theorem c10_link_text_filter :
    (∀ (s : List Record × List (List Char)) (l : Link),
        (stripChars l.text).length ≤ 1 → discStep s l = s) ∧
      extractDiscussions docShortLinkText = [] := by
  refine ⟨?_, by decide⟩
  intro s l h
  rw [discStep.eq_def, if_neg]
  rintro ⟨-, h2, -, -⟩
  omega

/-- C10 witness — the single-character discussion link is dropped with
the loop state unchanged. -/
theorem c10_link_text_filter_witness :
    discStep ([], []) { text := "x".data, href := sharedHref } = ([], []) :=
  c10_link_text_filter.1 ([], []) { text := "x".data, href := sharedHref }
    (by decide)
